import Mathlib

/-
Verification development for a taxi-booking application.

Shallow embedding of the fare-calculation and pricing-state logic found in
  src/components/MumbaiLocalBooking.tsx  (fare estimator, booking form)
  src/contexts/AdminContext.tsx          (pricing store CRUD)
JavaScript numbers are modelled as exact rationals (reals for the
trigonometric fallback path), Math.round as floor (x + 1/2), fallible
remote calls as explicit Except-valued inputs.
-/

/-- JavaScript Math.round on an exact rational: round half toward positive infinity. -/
def jsRound (q : ℚ) : ℤ := ⌊q + 1 / 2⌋

/-- Row of the local_fares table (interface LocalFare, AdminContext.tsx). -/
structure LocalFare where
  id : String
  service_area : String
  normal_4_seater_rate_per_km : ℚ
  normal_6_seater_rate_per_km : ℚ
  airport_4_seater_rate_per_km : ℚ
  airport_6_seater_rate_per_km : ℚ
deriving DecidableEq

/-- The fare breakdown object returned by getFare (MumbaiLocalBooking.tsx). -/
structure FareDetails where
  ratePerKm : ℚ
  total : ℤ
  isMinimumFare : Bool
deriving DecidableEq

/-- getFare (MumbaiLocalBooking.tsx lines 157-185).  The JS null guard
`distance === 0 || !mumbaiLocalRates` is split over the match on the rates
option; the 2x2 rate selection, Math.round and the minimum-fare clamp follow
the source line by line. -/
def getFare (distance : ℚ) (mumbaiLocalRates : Option LocalFare)
    (tripType carType : String) : Option FareDetails :=
  match mumbaiLocalRates with
  | none => none
  | some r =>
    if distance = 0 then none
    else
      let ratePerKm : ℚ :=
        if tripType = "airport" then
          if carType = "4-seater" then r.airport_4_seater_rate_per_km
          else r.airport_6_seater_rate_per_km
        else
          if carType = "4-seater" then r.normal_4_seater_rate_per_km
          else r.normal_6_seater_rate_per_km
      let totalFare : ℤ := jsRound (distance * ratePerKm)
      let isMinimumFare : Bool := decide (totalFare < 100)
      some { ratePerKm := ratePerKm
             total := if isMinimumFare then 100 else totalFare
             isMinimumFare := isMinimumFare }

/-- The example rate row used in the spec's end-to-end scenario. -/
def testRates : LocalFare :=
  { id := "lf1"
    service_area := "Mumbai Local"
    normal_4_seater_rate_per_km := 15
    normal_6_seater_rate_per_km := 18
    airport_4_seater_rate_per_km := 18
    airport_6_seater_rate_per_km := 22 }

lemma clamp_eq_max (t : ℤ) :
    (if t < 100 then (100 : ℤ) else t) = max 100 t := by
  by_cases h : t < 100
  · simp [h, max_eq_left h.le]
  · simp [h, max_eq_right (Int.not_lt.mp h)]

/-- C1: for distance > 0 and loaded rates, getFare selects the per-km rate by
the 2x2 (tripType, carType) matrix and returns
total = max 100 (round (distance * rate)) with
isMinimumFare = (round (distance * rate) < 100); in the spec scenario with
rates (15, 18, 18, 22), 40 km on a 4-seater costs 600 normal and 720 airport,
and 2 km at rate 15 is clamped to the 100 minimum. -/
theorem getFare_rate_matrix_and_minimum (d : ℚ) (r : LocalFare) (hd : 0 < d) :
    getFare d (some r) "normal" "4-seater" =
      some { ratePerKm := r.normal_4_seater_rate_per_km
             total := max 100 (jsRound (d * r.normal_4_seater_rate_per_km))
             isMinimumFare := decide (jsRound (d * r.normal_4_seater_rate_per_km) < 100) }
  ∧ getFare d (some r) "normal" "6-seater" =
      some { ratePerKm := r.normal_6_seater_rate_per_km
             total := max 100 (jsRound (d * r.normal_6_seater_rate_per_km))
             isMinimumFare := decide (jsRound (d * r.normal_6_seater_rate_per_km) < 100) }
  ∧ getFare d (some r) "airport" "4-seater" =
      some { ratePerKm := r.airport_4_seater_rate_per_km
             total := max 100 (jsRound (d * r.airport_4_seater_rate_per_km))
             isMinimumFare := decide (jsRound (d * r.airport_4_seater_rate_per_km) < 100) }
  ∧ getFare d (some r) "airport" "6-seater" =
      some { ratePerKm := r.airport_6_seater_rate_per_km
             total := max 100 (jsRound (d * r.airport_6_seater_rate_per_km))
             isMinimumFare := decide (jsRound (d * r.airport_6_seater_rate_per_km) < 100) }
  ∧ getFare 40 (some testRates) "normal" "4-seater" =
      some { ratePerKm := 15, total := 600, isMinimumFare := false }
  ∧ getFare 40 (some testRates) "airport" "4-seater" =
      some { ratePerKm := 18, total := 720, isMinimumFare := false }
  ∧ getFare 2 (some testRates) "normal" "4-seater" =
      some { ratePerKm := 15, total := 100, isMinimumFare := true } := by
  refine ⟨?_, ?_, ?_, ?_,
    by simp [getFare, testRates]; norm_num [jsRound],
    by simp [getFare, testRates]; norm_num [jsRound],
    by simp [getFare, testRates]; norm_num [jsRound]⟩ <;>
    simp [getFare, hd.ne', clamp_eq_max]

/-- C1 witness: the end-to-end scenario at distance 40 with the spec's rates. -/
theorem getFare_rate_matrix_and_minimum_witness :
    (0 : ℚ) < 40 ∧
    getFare 40 (some testRates) "normal" "4-seater" =
      some { ratePerKm := 15, total := 600, isMinimumFare := false } :=
  ⟨by norm_num, (getFare_rate_matrix_and_minimum 40 testRates (by norm_num)).2.2.2.2.1⟩

/-- C6: getFare returns none exactly when the distance is 0 or the rates are
not yet loaded, and a present fare breakdown otherwise; the absent result is
a value, not a thrown error. -/
theorem getFare_none_iff (d : ℚ) (rates : Option LocalFare) (tripType carType : String) :
    (getFare d rates tripType carType = none ↔ (d = 0 ∨ rates = none)) := by
  cases rates with
  | none => simp [getFare]
  | some r =>
    by_cases hd : d = 0 <;> simp [getFare, hd]

/-- C10: rate selection is total over arbitrary strings: any carType other
than "4-seater" selects the 6-seater rate and any tripType other than
"airport" selects the normal family, so every string pair with d > 0 and
loaded rates yields a present fare breakdown. -/
theorem getFare_total_on_strings (d : ℚ) (r : LocalFare) (tripType carType : String)
    (hd : 0 < d) :
    (getFare d (some r) tripType carType).isSome = true
  ∧ (tripType ≠ "airport" → carType = "4-seater" →
      (getFare d (some r) tripType carType).map FareDetails.ratePerKm =
        some r.normal_4_seater_rate_per_km)
  ∧ (tripType ≠ "airport" → carType ≠ "4-seater" →
      (getFare d (some r) tripType carType).map FareDetails.ratePerKm =
        some r.normal_6_seater_rate_per_km)
  ∧ (tripType = "airport" → carType = "4-seater" →
      (getFare d (some r) tripType carType).map FareDetails.ratePerKm =
        some r.airport_4_seater_rate_per_km)
  ∧ (tripType = "airport" → carType ≠ "4-seater" →
      (getFare d (some r) tripType carType).map FareDetails.ratePerKm =
        some r.airport_6_seater_rate_per_km) := by
  refine ⟨by simp [getFare, hd.ne'], ?_, ?_, ?_, ?_⟩ <;>
    intro h1 h2 <;> simp [getFare, hd.ne', h1, h2]

/-- C10 witness: the undeclared strings "shared" and "suv" still produce a
fare, priced with the normal 6-seater rate. -/
theorem getFare_total_on_strings_witness :
    (0 : ℚ) < 7 ∧
    ("shared" : String) ≠ "airport" ∧ ("suv" : String) ≠ "4-seater" ∧
    (getFare 7 (some testRates) "shared" "suv").map FareDetails.ratePerKm =
      some testRates.normal_6_seater_rate_per_km :=
  ⟨by norm_num, by decide, by decide,
    (getFare_total_on_strings 7 testRates "shared" "suv" (by norm_num)).2.2.1
      (by decide) (by decide)⟩

/-- Row of the cities table (interface City, AdminContext.tsx). -/
structure City where
  id : String
  name : String
deriving DecidableEq

/-- Row of the routes table (interface Route, AdminContext.tsx). -/
structure Route where
  id : String
  from_city : String
  to_city : String
  price_4_seater : ℚ
  price_6_seater : ℚ
deriving DecidableEq

/-- The PricingConfig aggregate held by the AdminProvider. -/
structure PricingConfig where
  mumbaiLocal : Option LocalFare
  cities : List City
  routes : List Route
deriving DecidableEq

/-- Structured error returned by the remote table store; `code` carries the
conflict code inspected by addCity/addRoute (error.code === '23505'). -/
structure DbError where
  code : Option String
deriving DecidableEq

/-- The three user-facing outcomes of an admin mutation, distinguished by the
toast emitted in AdminContext.tsx. -/
inductive MutationOutcome
  | success
  | alreadyExists
  | otherFailure
deriving DecidableEq

/-- addCity (AdminContext.tsx lines 158-184).  The remote insert-and-return is
an explicit input; on success the returned row is appended to the in-memory
city list, on error the state is untouched and the toast is chosen by the
conflict code. -/
def addCity (prev : PricingConfig) (remote : Except DbError City) :
    PricingConfig × Bool × MutationOutcome :=
  match remote with
  | .ok data =>
      ({ prev with cities := prev.cities ++ [data] }, true, .success)
  | .error e =>
      (prev, false, if e.code = some "23505" then .alreadyExists else .otherFailure)

/-- removeCity (AdminContext.tsx lines 186-207): delete by id, filter the
local list on success only. -/
def removeCity (prev : PricingConfig) (cityId : String)
    (remote : Except DbError Unit) : PricingConfig × Bool × MutationOutcome :=
  match remote with
  | .ok _ =>
      ({ prev with cities := prev.cities.filter (fun c => c.id != cityId) },
        true, .success)
  | .error _ => (prev, false, .otherFailure)

/-- addRoute (AdminContext.tsx lines 209-240): same contract as addCity, on
the routes list. -/
def addRoute (prev : PricingConfig) (remote : Except DbError Route) :
    PricingConfig × Bool × MutationOutcome :=
  match remote with
  | .ok data =>
      ({ prev with routes := prev.routes ++ [data] }, true, .success)
  | .error e =>
      (prev, false, if e.code = some "23505" then .alreadyExists else .otherFailure)

/-- updateRoute (AdminContext.tsx lines 242-268): on success the local list
replaces every entry whose id matches by the row the store returned. -/
def updateRoute (prev : PricingConfig) (routeId : String)
    (remote : Except DbError Route) : PricingConfig × Bool × MutationOutcome :=
  match remote with
  | .ok data =>
      ({ prev with routes := prev.routes.map (fun r => if r.id = routeId then data else r) },
        true, .success)
  | .error _ => (prev, false, .otherFailure)

/-- deleteRoute (AdminContext.tsx lines 270-291). -/
def deleteRoute (prev : PricingConfig) (routeId : String)
    (remote : Except DbError Unit) : PricingConfig × Bool × MutationOutcome :=
  match remote with
  | .ok _ =>
      ({ prev with routes := prev.routes.filter (fun r => r.id != routeId) },
        true, .success)
  | .error _ => (prev, false, .otherFailure)

/-- updatePricing (AdminContext.tsx lines 151-154): local-first wholesale
replacement of the aggregate; no remote call is involved. -/
def updatePricing (prev newPricing : PricingConfig) : PricingConfig :=
  newPricing

/-- fetchCitiesAndRoutes (AdminContext.tsx lines 86-109): both selects run in
one try block, so an error in either leaves both slices untouched; on success
both slices are replaced at once and mumbaiLocal is untouched. -/
def fetchCitiesAndRoutes (prev : PricingConfig)
    (citiesRes : Except DbError (List City))
    (routesRes : Except DbError (List Route)) : PricingConfig × Bool :=
  match citiesRes with
  | .error _ => (prev, false)
  | .ok cities =>
    match routesRes with
    | .error _ => (prev, false)
    | .ok routes => ({ prev with cities := cities, routes := routes }, true)

/-- fetchLocalFares (AdminContext.tsx lines 111-129). -/
def fetchLocalFares (prev : PricingConfig)
    (res : Except DbError LocalFare) : PricingConfig × Bool :=
  match res with
  | .error _ => (prev, false)
  | .ok localFares => ({ prev with mumbaiLocal := some localFares }, true)

/-- The load performed on mount (AdminContext.tsx lines 75-84):
fetchCitiesAndRoutes then fetchLocalFares. -/
def loadPricing (prev : PricingConfig)
    (citiesRes : Except DbError (List City))
    (routesRes : Except DbError (List Route))
    (faresRes : Except DbError LocalFare) : PricingConfig :=
  (fetchLocalFares (fetchCitiesAndRoutes prev citiesRes routesRes).1 faresRes).1

/-- C3: the duplicate-detection contract of addCity and addRoute: a remote
error carrying the conflict code 23505 reports the distinct already-exists
outcome and leaves the in-memory set unchanged in count, a success appends
exactly the returned row, and any other error reports the generic failure;
both operations return a value in every case (no throw escapes). -/
theorem addCity_addRoute_duplicate_contract (prev : PricingConfig) (c : City)
    (rt : Route) (e : DbError) (he : e.code ≠ some "23505") :
    addCity prev (.error { code := some "23505" }) =
      (prev, false, MutationOutcome.alreadyExists)
  ∧ ((addCity prev (.error { code := some "23505" })).1).cities.length =
      prev.cities.length
  ∧ (addCity prev (.ok c)).1.cities = prev.cities ++ [c]
  ∧ ((addCity prev (.ok c)).1).cities.length = prev.cities.length + 1
  ∧ addCity prev (.error e) = (prev, false, MutationOutcome.otherFailure)
  ∧ addRoute prev (.error { code := some "23505" }) =
      (prev, false, MutationOutcome.alreadyExists)
  ∧ ((addRoute prev (.error { code := some "23505" })).1).routes.length =
      prev.routes.length
  ∧ (addRoute prev (.ok rt)).1.routes = prev.routes ++ [rt]
  ∧ ((addRoute prev (.ok rt)).1).routes.length = prev.routes.length + 1
  ∧ addRoute prev (.error e) = (prev, false, MutationOutcome.otherFailure) := by
  refine ⟨?_, ?_, ?_, ?_, ?_, ?_, ?_, ?_, ?_, ?_⟩ <;>
    simp [addCity, addRoute, he]

/-- C3 witness: a conflict-coded error on an empty store reports
already-exists and changes nothing. -/
theorem addCity_addRoute_duplicate_contract_witness :
    ({ code := none } : DbError).code ≠ some "23505" ∧
    addCity { mumbaiLocal := none, cities := [], routes := [] }
        (.error { code := some "23505" }) =
      ({ mumbaiLocal := none, cities := [], routes := [] }, false,
        MutationOutcome.alreadyExists) :=
  ⟨by decide,
    (addCity_addRoute_duplicate_contract
      { mumbaiLocal := none, cities := [], routes := [] }
      { id := "c1", name := "Pune" }
      { id := "r9", from_city := "Mumbai", to_city := "Pune",
        price_4_seater := 10, price_6_seater := 20 }
      { code := none } (by decide)).1⟩

/-- C4: every remote-backed mutation leaves the in-memory PricingConfig
exactly unchanged when the remote call reports an error, and updatePricing is
the local-first exception: it replaces the aggregate without consulting any
remote outcome. -/
theorem remote_error_leaves_pricing_unchanged (prev newPricing : PricingConfig)
    (e : DbError) (cityId routeId : String) :
    (addCity prev (.error e)).1 = prev
  ∧ (removeCity prev cityId (.error e)).1 = prev
  ∧ (addRoute prev (.error e)).1 = prev
  ∧ (updateRoute prev routeId (.error e)).1 = prev
  ∧ (deleteRoute prev routeId (.error e)).1 = prev
  ∧ updatePricing prev newPricing = newPricing :=
  ⟨rfl, rfl, rfl, rfl, rfl, rfl⟩

/-- Remote routes-table update, modelled from the spec's external-interface
contract (section 6, update-and-return): the stored row matching the id comes
back with only the two price fields replaced; with no matching row the
single-row select yields an error. -/
def dbUpdateRouteRow (rows : List Route) (routeId : String) (p4 p6 : ℚ) :
    Option Route :=
  (rows.find? (fun r => r.id == routeId)).map
    (fun r => { r with price_4_seater := p4, price_6_seater := p6 })

/-- updateRoute run against a remote store holding the given routes table:
the remote update-and-return feeds the local cache replacement of
AdminContext.tsx lines 242-268. -/
def updateRouteFull (prev : PricingConfig) (server : List Route)
    (routeId : String) (p4 p6 : ℚ) : PricingConfig × Bool × MutationOutcome :=
  match dbUpdateRouteRow server routeId p4 p6 with
  | some data => updateRoute prev routeId (.ok data)
  | none => updateRoute prev routeId (.error { code := none })

/-- C5: after a successful updateRoute on a store in sync with the in-memory
routes (and with distinct route ids), only the two price fields of the
matching route change — its cities stay put, every other route is unchanged,
and the cities and local-rate slices of the aggregate are untouched. -/
theorem updateRoute_frame (cfg : PricingConfig) (routeId : String) (p4 p6 : ℚ)
    (hids : (cfg.routes.map Route.id).Nodup)
    (hok : (updateRouteFull cfg cfg.routes routeId p4 p6).2.1 = true) :
    (updateRouteFull cfg cfg.routes routeId p4 p6).1.routes =
      cfg.routes.map (fun r =>
        if r.id = routeId then
          { r with price_4_seater := p4, price_6_seater := p6 }
        else r)
  ∧ (updateRouteFull cfg cfg.routes routeId p4 p6).1.cities = cfg.cities
  ∧ (updateRouteFull cfg cfg.routes routeId p4 p6).1.mumbaiLocal =
      cfg.mumbaiLocal := by
  cases hfind : cfg.routes.find? (fun r => r.id == routeId) with
  | none =>
    exfalso
    simp [updateRouteFull, dbUpdateRouteRow, updateRoute, hfind] at hok
  | some r0 =>
    have hr0mem : r0 ∈ cfg.routes := List.mem_of_find?_eq_some hfind
    have hr0id : r0.id = routeId := by simpa using List.find?_some hfind
    refine ⟨?_, ?_, ?_⟩ <;>
      simp only [updateRouteFull, dbUpdateRouteRow, hfind, Option.map_some',
        updateRoute]
    apply List.map_congr_left
    intro r hr
    by_cases h : r.id = routeId
    · have hrr0 : r = r0 :=
        List.inj_on_of_nodup_map hids hr hr0mem (by rw [h, hr0id])
      rw [hrr0]
    · simp [h]

/-- C5 witness: updating route r1 to prices (11, 21) in a two-route store
rewrites exactly that route's price fields. -/
theorem updateRoute_frame_witness :
    ((({ mumbaiLocal := none, cities := [],
          routes := [{ id := "r1", from_city := "Mumbai", to_city := "Pune",
                       price_4_seater := 10, price_6_seater := 20 },
                     { id := "r2", from_city := "Pune", to_city := "Nashik",
                       price_4_seater := 30, price_6_seater := 40 }] } :
        PricingConfig).routes.map Route.id).Nodup)
  ∧ (updateRouteFull
      { mumbaiLocal := none, cities := [],
        routes := [{ id := "r1", from_city := "Mumbai", to_city := "Pune",
                     price_4_seater := 10, price_6_seater := 20 },
                   { id := "r2", from_city := "Pune", to_city := "Nashik",
                     price_4_seater := 30, price_6_seater := 40 }] }
      [{ id := "r1", from_city := "Mumbai", to_city := "Pune",
         price_4_seater := 10, price_6_seater := 20 },
       { id := "r2", from_city := "Pune", to_city := "Nashik",
         price_4_seater := 30, price_6_seater := 40 }] "r1" 11 21).1.routes =
      ([{ id := "r1", from_city := "Mumbai", to_city := "Pune",
          price_4_seater := 10, price_6_seater := 20 },
        { id := "r2", from_city := "Pune", to_city := "Nashik",
          price_4_seater := 30, price_6_seater := 40 }] : List Route).map
        (fun r => if r.id = "r1" then
            { r with price_4_seater := 11, price_6_seater := 21 }
          else r) :=
  ⟨by decide,
    (updateRoute_frame
      { mumbaiLocal := none, cities := [],
        routes := [{ id := "r1", from_city := "Mumbai", to_city := "Pune",
                     price_4_seater := 10, price_6_seater := 20 },
                   { id := "r2", from_city := "Pune", to_city := "Nashik",
                     price_4_seater := 30, price_6_seater := 40 }] }
      "r1" 11 21 (by decide) (by decide)).1⟩

/-- C7 counterexample: with an empty starting aggregate, a failing cities
select and a succeeding routes select, the routes slice stays empty — the
fetched route list is not applied, contradicting the claimed independence of
the cities and routes fetches. -/
theorem fetch_cities_failure_blocks_routes :
    (fetchCitiesAndRoutes { mumbaiLocal := none, cities := [], routes := [] }
        (.error { code := none })
        (.ok [{ id := "r1", from_city := "Mumbai", to_city := "Pune",
                price_4_seater := 10, price_6_seater := 20 }])).1.routes = []
  ∧ (fetchCitiesAndRoutes { mumbaiLocal := none, cities := [], routes := [] }
        (.error { code := none })
        (.ok [{ id := "r1", from_city := "Mumbai", to_city := "Pune",
                price_4_seater := 10, price_6_seater := 20 }])).1.routes ≠
      [{ id := "r1", from_city := "Mumbai", to_city := "Pune",
         price_4_seater := 10, price_6_seater := 20 }] :=
  ⟨rfl, by decide⟩

/-- C7 amended: the cities-and-routes fetch and the local-fares fetch are
independent of each other, but cities and routes share one guarded block: an
error in either select leaves both of those slices (and mumbaiLocal) at their
previous values, an error of the local-fares fetch leaves cities and routes
untouched, and a failing cities/routes fetch does not stop the local-fares
row from being applied. -/
theorem load_slice_independence (prev : PricingConfig) (e : DbError)
    (cs : List City) (rs : List Route) (lf : LocalFare)
    (routesRes : Except DbError (List Route)) :
    (fetchCitiesAndRoutes prev (.error e) routesRes).1 = prev
  ∧ (fetchCitiesAndRoutes prev (.ok cs) (.error e)).1 = prev
  ∧ (fetchCitiesAndRoutes prev (.ok cs) (.ok rs)).1 =
      { prev with cities := cs, routes := rs }
  ∧ (∀ citiesRes : Except DbError (List City),
      ((fetchCitiesAndRoutes prev citiesRes routesRes).1).mumbaiLocal =
        prev.mumbaiLocal)
  ∧ (fetchLocalFares prev (.error e)).1 = prev
  ∧ (fetchLocalFares prev (.ok lf)).1 = { prev with mumbaiLocal := some lf }
  ∧ loadPricing prev (.error e) routesRes (.ok lf) =
      { prev with mumbaiLocal := some lf } := by
  refine ⟨rfl, rfl, rfl, ?_, rfl, rfl, rfl⟩
  intro citiesRes
  cases citiesRes <;> cases routesRes <;> rfl

/-- isValidPhoneNumber (MumbaiLocalBooking.tsx lines 76-79): the regex
matches exactly ten ASCII digits. -/
def isValidPhoneNumber (phone : String) : Bool :=
  phone.length == 10 && phone.toList.all Char.isDigit

/-- The domain side of the email regex, [^ ]+ dot [^ ]+ : some dot sits
strictly inside the string (a dot may also appear in either side). -/
def hasInteriorDot (s : String) : Bool :=
  (List.range s.toList.length).any
    (fun i => decide (0 < i) && decide (i + 1 < s.toList.length) &&
      (s.toList.getD i ' ' == '.'))

/-- isValidEmail (MumbaiLocalBooking.tsx lines 82-85): executable rendering of
the anchored regex: one non-whitespace, non-at chunk, an at sign, then a
chunk containing a dot that is neither its first nor its last character;
splitting on the at sign enforces that exactly one occurs. -/
def isValidEmail (email : String) : Bool :=
  match email.splitOn "@" with
  | [localPart, domainPart] =>
    !localPart.isEmpty &&
    localPart.toList.all (fun c => !c.isWhitespace) &&
    !domainPart.isEmpty &&
    domainPart.toList.all (fun c => !c.isWhitespace) &&
    hasInteriorDot domainPart
  | _ => false

/-- The booking form state (MumbaiLocalBooking.tsx lines 103-113). -/
structure Booking where
  customerName : String
  customerPhone : String
  customerEmail : String
  pickup : String
  drop : String
  carType : String
  tripType : String
  date : String
  time : String
deriving DecidableEq

/-- The data content of the outbound messaging deep link built in
handleSubmit (MumbaiLocalBooking.tsx lines 269-284). -/
structure WhatsAppMessage where
  customerName : String
  customerPhone : String
  emailShown : String
  pickup : String
  drop : String
  distanceKm : ℚ
  durationMin : ℚ
  carType : String
  date : String
  time : String
  serviceType : String
  estimatedPrice : ℤ
deriving DecidableEq

/-- Message construction from the submit handler: the email falls back to a
placeholder, the service type is chosen by tripType, and the price is the
fare total or 0 when the fare is absent. -/
def mkWhatsAppMessage (b : Booking) (distance duration : ℚ)
    (rates : Option LocalFare) : WhatsAppMessage :=
  { customerName := b.customerName
    customerPhone := b.customerPhone
    emailShown := if b.customerEmail = "" then "Not provided" else b.customerEmail
    pickup := b.pickup
    drop := b.drop
    distanceKm := distance
    durationMin := duration
    carType := b.carType
    date := b.date
    time := b.time
    serviceType := if b.tripType = "airport" then "Airport Transfer" else "Local Ride"
    estimatedPrice :=
      match getFare distance rates b.tripType b.carType with
      | some fd => fd.total
      | none => 0 }

/-- saveBookingToDatabase (MumbaiLocalBooking.tsx lines 207-230): the insert
outcome is an input; an error is caught and turned into false. -/
def saveBookingToDatabase (remote : Except DbError Unit) : Bool :=
  match remote with
  | .ok _ => true
  | .error _ => false

/-- The observable outcome of one form submission (handleSubmit,
MumbaiLocalBooking.tsx lines 232-286): either a specific blocking
notification, or a submission that records whether the save failed and
carries the message handed to the deep link. -/
inductive SubmitResult
  | blockedMissingFields
  | blockedInvalidPhone
  | blockedInvalidEmail
  | blockedNoDistance
  | submitted (saveFailed : Bool) (message : WhatsAppMessage)
deriving DecidableEq

/-- Whether the submission reached the booking-persistence call. -/
def SubmitResult.persistenceAttempted : SubmitResult → Bool
  | .submitted _ _ => true
  | _ => false

/-- Whether the submission opened the messaging deep link. -/
def SubmitResult.whatsappOpened : SubmitResult → Bool
  | .submitted _ _ => true
  | _ => false

/-- handleSubmit (MumbaiLocalBooking.tsx lines 232-286).  The four validation
gates return early; past them the save is attempted and the deep link opens
whether or not the save succeeded (the early return sits inside the promise
callback and does not reach the message construction). -/
def handleSubmit (b : Booking) (distance duration : ℚ)
    (rates : Option LocalFare) (saveRemote : Except DbError Unit) : SubmitResult :=
  if b.customerName = "" ∨ b.customerPhone = "" ∨ b.pickup = "" ∨ b.drop = "" ∨
      b.date = "" ∨ b.time = "" then
    .blockedMissingFields
  else if isValidPhoneNumber b.customerPhone = false then
    .blockedInvalidPhone
  else if b.customerEmail ≠ "" ∧ isValidEmail b.customerEmail = false then
    .blockedInvalidEmail
  else if distance = 0 then
    .blockedNoDistance
  else
    .submitted (!saveBookingToDatabase saveRemote)
      (mkWhatsAppMessage b distance duration rates)

/-- C8: each validation failure (missing required field, bad phone, non-empty
malformed email, zero distance) blocks the submission with its specific
notification, attempting neither persistence nor the messaging hand-off; the
phone rule is exactly ten digits. -/
theorem handleSubmit_validation_blocks (b : Booking) (distance duration : ℚ)
    (rates : Option LocalFare) (saveRemote : Except DbError Unit) :
    ((b.customerName = "" ∨ b.customerPhone = "" ∨ b.pickup = "" ∨ b.drop = "" ∨
        b.date = "" ∨ b.time = "") →
      handleSubmit b distance duration rates saveRemote = .blockedMissingFields)
  ∧ (b.customerName ≠ "" → b.customerPhone ≠ "" → b.pickup ≠ "" → b.drop ≠ "" →
      b.date ≠ "" → b.time ≠ "" → isValidPhoneNumber b.customerPhone = false →
      handleSubmit b distance duration rates saveRemote = .blockedInvalidPhone)
  ∧ (b.customerName ≠ "" → b.customerPhone ≠ "" → b.pickup ≠ "" → b.drop ≠ "" →
      b.date ≠ "" → b.time ≠ "" → isValidPhoneNumber b.customerPhone = true →
      b.customerEmail ≠ "" → isValidEmail b.customerEmail = false →
      handleSubmit b distance duration rates saveRemote = .blockedInvalidEmail)
  ∧ (b.customerName ≠ "" → b.customerPhone ≠ "" → b.pickup ≠ "" → b.drop ≠ "" →
      b.date ≠ "" → b.time ≠ "" → isValidPhoneNumber b.customerPhone = true →
      (b.customerEmail = "" ∨ isValidEmail b.customerEmail = true) →
      distance = 0 →
      handleSubmit b distance duration rates saveRemote = .blockedNoDistance)
  ∧ (∀ res : SubmitResult,
      (res = .blockedMissingFields ∨ res = .blockedInvalidPhone ∨
        res = .blockedInvalidEmail ∨ res = .blockedNoDistance) →
      res.persistenceAttempted = false ∧ res.whatsappOpened = false)
  ∧ isValidPhoneNumber "1234567890" = true
  ∧ isValidPhoneNumber "12345" = false
  ∧ isValidPhoneNumber "12345abcde" = false := by
  refine ⟨?_, ?_, ?_, ?_, ?_, by decide, by decide, by decide⟩
  · intro h
    unfold handleSubmit
    exact if_pos h
  · intro h1 h2 h3 h4 h5 h6 hphone
    simp [handleSubmit, h1, h2, h3, h4, h5, h6, hphone]
  · intro h1 h2 h3 h4 h5 h6 hphone he1 he2
    simp [handleSubmit, h1, h2, h3, h4, h5, h6, hphone, he1, he2]
  · intro h1 h2 h3 h4 h5 h6 hphone hemail hdist
    rcases hemail with he | he <;>
      simp [handleSubmit, h1, h2, h3, h4, h5, h6, hphone, he, hdist]
  · intro res h
    rcases h with h | h | h | h <;> subst h <;> exact ⟨rfl, rfl⟩

/-- C8 witness: a five-digit phone number blocks the submission with the
phone notification. -/
theorem handleSubmit_validation_blocks_witness :
    isValidPhoneNumber "12345" = false ∧
    handleSubmit
      { customerName := "Asha", customerPhone := "12345", customerEmail := "",
        pickup := "Dadar", drop := "Bandra", carType := "4-seater",
        tripType := "normal", date := "2026-01-01", time := "10:00" }
      5 15 none (.ok ()) = .blockedInvalidPhone :=
  ⟨by decide,
    (handleSubmit_validation_blocks
      { customerName := "Asha", customerPhone := "12345", customerEmail := "",
        pickup := "Dadar", drop := "Bandra", carType := "4-seater",
        tripType := "normal", date := "2026-01-01", time := "10:00" }
      5 15 none (.ok ())).2.1
      (by decide) (by decide) (by decide) (by decide) (by decide) (by decide)
      (by decide)⟩

/-- C9: once every validation passes, the submission always reaches the
persistence call, and a failing save is recorded but does not block the
hand-off: the message is built the same way and the deep link opens whatever
the save outcome was. -/
theorem handleSubmit_save_failure_still_opens (b : Booking)
    (distance duration : ℚ) (rates : Option LocalFare)
    (h1 : b.customerName ≠ "") (h2 : b.customerPhone ≠ "") (h3 : b.pickup ≠ "")
    (h4 : b.drop ≠ "") (h5 : b.date ≠ "") (h6 : b.time ≠ "")
    (hphone : isValidPhoneNumber b.customerPhone = true)
    (hemail : b.customerEmail = "" ∨ isValidEmail b.customerEmail = true)
    (hdist : distance ≠ 0) :
    (∀ saveRemote : Except DbError Unit,
      handleSubmit b distance duration rates saveRemote =
        .submitted (!saveBookingToDatabase saveRemote)
          (mkWhatsAppMessage b distance duration rates))
  ∧ (∀ e : DbError,
      (handleSubmit b distance duration rates (.error e)).whatsappOpened = true
      ∧ saveBookingToDatabase (.error e) = false)
  ∧ (∀ saveRemote : Except DbError Unit,
      (handleSubmit b distance duration rates saveRemote).persistenceAttempted =
        true) := by
  have hmain : ∀ saveRemote : Except DbError Unit,
      handleSubmit b distance duration rates saveRemote =
        .submitted (!saveBookingToDatabase saveRemote)
          (mkWhatsAppMessage b distance duration rates) := by
    intro saveRemote
    rcases hemail with he | he <;>
      simp [handleSubmit, h1, h2, h3, h4, h5, h6, hphone, he, hdist]
  refine ⟨hmain, ?_, ?_⟩
  · intro e
    rw [hmain]
    exact ⟨rfl, rfl⟩
  · intro saveRemote
    rw [hmain]
    rfl

/-- C9 witness: a fully valid booking whose save errors out still opens the
messaging deep link. -/
theorem handleSubmit_save_failure_still_opens_witness :
    isValidPhoneNumber "1234567890" = true ∧
    (handleSubmit
      { customerName := "Asha", customerPhone := "1234567890",
        customerEmail := "", pickup := "Dadar", drop := "Bandra",
        carType := "4-seater", tripType := "normal", date := "2026-01-01",
        time := "10:00" }
      5 15 none (.error { code := none })).whatsappOpened = true :=
  ⟨by decide,
    ((handleSubmit_save_failure_still_opens
      { customerName := "Asha", customerPhone := "1234567890",
        customerEmail := "", pickup := "Dadar", drop := "Bandra",
        carType := "4-seater", tripType := "normal", date := "2026-01-01",
        time := "10:00" }
      5 15 none (by decide) (by decide) (by decide) (by decide) (by decide)
      (by decide) (by decide) (Or.inl rfl) (by norm_num)).2.1
      { code := none }).1⟩

/-- A latitude/longitude pair in degrees. -/
structure Coord where
  lat : ℝ
  lng : ℝ

/-- JavaScript Math.atan2 for real arguments (signed zeros aside, which do
not exist in ℝ). -/
noncomputable def atan2 (y x : ℝ) : ℝ :=
  if 0 < x then Real.arctan (y / x)
  else if x < 0 then
    (if 0 ≤ y then Real.arctan (y / x) + Real.pi else Real.arctan (y / x) - Real.pi)
  else
    (if 0 < y then Real.pi / 2 else if y < 0 then -(Real.pi / 2) else 0)

/-- JavaScript Math.round for a real argument. -/
noncomputable def jsRoundR (x : ℝ) : ℤ := ⌊x + 1 / 2⌋

/-- calculateStraightLineDistance (MumbaiLocalBooking.tsx lines 88-100):
haversine central angle on Earth radius 6371, rounded to 2 decimals via
Math.round (distance * 100) / 100. -/
noncomputable def calculateStraightLineDistance (pickup dropPt : Coord) : ℝ :=
  let R : ℝ := 6371
  let dLat := (dropPt.lat - pickup.lat) * Real.pi / 180
  let dLng := (dropPt.lng - pickup.lng) * Real.pi / 180
  let a := Real.sin (dLat / 2) * Real.sin (dLat / 2) +
    Real.cos (pickup.lat * Real.pi / 180) * Real.cos (dropPt.lat * Real.pi / 180) *
    Real.sin (dLng / 2) * Real.sin (dLng / 2)
  let c := 2 * atan2 (Real.sqrt a) (Real.sqrt (1 - a))
  (jsRoundR (R * c * 100) : ℝ) / 100

/-- calculateRouteDetails (MumbaiLocalBooking.tsx lines 133-155): a
successful distance-service response is applied as-is; on error the
straight-line fallback sets distance and duration = Math.round (d * 3). -/
noncomputable def calculateRouteDetails (apiResult : Option (ℝ × ℝ))
    (pickup dropPt : Coord) : ℝ × ℝ :=
  match apiResult with
  | some result => result
  | none =>
    let straightDistance := calculateStraightLineDistance pickup dropPt
    (straightDistance, (jsRoundR (straightDistance * 3) : ℤ))

lemma jsRoundR_zero : jsRoundR 0 = 0 := by
  rw [jsRoundR, Int.floor_eq_iff]
  norm_num

lemma straight_self (p : Coord) : calculateStraightLineDistance p p = 0 := by
  simp [calculateStraightLineDistance, atan2, zero_lt_one, jsRoundR_zero]

lemma atan2_sqrt_half :
    atan2 (Real.sqrt (1 / 2)) (Real.sqrt (1 - 1 / 2)) = Real.pi / 4 := by
  have h : (1 : ℝ) - 1 / 2 = 1 / 2 := by norm_num
  rw [h]
  have hpos : 0 < Real.sqrt (1 / 2) := Real.sqrt_pos.mpr (by norm_num)
  rw [atan2, if_pos hpos, div_self hpos.ne']
  exact Real.arctan_one

lemma straight_quarter :
    calculateStraightLineDistance ⟨0, 0⟩ ⟨0, 90⟩ = 1000754 / 100 := by
  simp only [calculateStraightLineDistance]
  have harg : Real.sin (((0 : ℝ) - 0) * Real.pi / 180 / 2) *
        Real.sin (((0 : ℝ) - 0) * Real.pi / 180 / 2) +
      Real.cos ((0 : ℝ) * Real.pi / 180) * Real.cos ((0 : ℝ) * Real.pi / 180) *
        Real.sin (((90 : ℝ) - 0) * Real.pi / 180 / 2) *
        Real.sin (((90 : ℝ) - 0) * Real.pi / 180 / 2) = 1 / 2 := by
    have h1 : ((0 : ℝ) - 0) * Real.pi / 180 / 2 = 0 := by ring
    have h2 : ((90 : ℝ) - 0) * Real.pi / 180 / 2 = Real.pi / 4 := by ring
    have h3 : (0 : ℝ) * Real.pi / 180 = 0 := by ring
    rw [h1, h2, h3, Real.sin_zero, Real.cos_zero, Real.sin_pi_div_four]
    have hs : Real.sqrt 2 * Real.sqrt 2 = 2 := Real.mul_self_sqrt (by norm_num)
    nlinarith [hs]
  rw [harg, atan2_sqrt_half]
  have hval : (6371 : ℝ) * (2 * (Real.pi / 4)) * 100 = 318550 * Real.pi := by ring
  rw [hval]
  have hfloor : jsRoundR (318550 * Real.pi) = 1000754 := by
    rw [jsRoundR, Int.floor_eq_iff]
    constructor
    · push_cast
      nlinarith [Real.pi_gt_d6]
    · push_cast
      nlinarith [Real.pi_lt_d6]
  rw [hfloor]
  norm_num

/-- C2 amended: on a failed distance-service call the fallback distance is the
haversine great-circle distance on Earth radius 6371 km rounded to 2 decimal
places — identical coordinates give (0, 0), and the (0,0) to (0,90) quarter
great circle is 10007.54 km, matching a reference haversine to 2 decimals —
while the fallback duration is Math.round (distance * 3), not distance * 3
itself. -/
theorem fallback_route_properties :
    (∀ p : Coord, calculateRouteDetails none p p = (0, 0))
  ∧ (∀ p q : Coord, (calculateRouteDetails none p q).2 =
      ((jsRoundR ((calculateRouteDetails none p q).1 * 3) : ℤ) : ℝ))
  ∧ (calculateRouteDetails none ⟨0, 0⟩ ⟨0, 90⟩).1 = 10007.54 := by
  refine ⟨?_, fun p q => rfl, ?_⟩
  · intro p
    simp [calculateRouteDetails, straight_self, jsRoundR_zero]
  · simp [calculateRouteDetails, straight_quarter]
    norm_num

/-- C2 counterexample: at the concrete input (0,0) to (0,90) the fallback
distance is 10007.54 km, so distance * 3 = 30022.62, but the code stores the
rounded duration 30023 — the claimed equality duration = distance * 3 fails. -/
theorem fallback_duration_not_triple :
    (calculateRouteDetails none ⟨0, 0⟩ ⟨0, 90⟩).2 ≠
      (calculateRouteDetails none ⟨0, 0⟩ ⟨0, 90⟩).1 * 3 := by
  have h1 : (calculateRouteDetails none ⟨0, 0⟩ ⟨0, 90⟩).1 = 1000754 / 100 := by
    simp [calculateRouteDetails, straight_quarter]
  have h2 : (calculateRouteDetails none ⟨0, 0⟩ ⟨0, 90⟩).2 = 30023 := by
    simp only [calculateRouteDetails, straight_quarter]
    have h : jsRoundR ((1000754 : ℝ) / 100 * 3) = 30023 := by
      rw [jsRoundR, Int.floor_eq_iff]
      norm_num
    rw [h]
    norm_num
  rw [h1, h2]
  norm_num
